import Mathlib

/-!
Verification of the PandasSchema validation-combinator and axis-indexing engine
(`pandas_schema/index.py`, `pandas_schema/core.py`, `pandas_schema/scope.py`,
`pandas_schema/validation_warning.py`).

The embedding conventions used throughout this file:

* A pandas `Series` whose index is a subset of the row labels `0 .. n-1` of the
  validated frame is represented positionally as a `List (Option β)` of length
  `n`: slot `i` is `some v` when label `i` is present in the series with value
  `v`, and `none` when label `i` is absent.  All the series manipulated by the
  engine (boolean pass/fail masks, selections of one column, warning series)
  carry integer labels drawn from `0 .. n-1` in increasing order, so this
  encoding is exact: `Series.combine` (which aligns on the sorted union of the
  two indices) becomes a `zipWith`, and boolean-mask selection
  (`series[bool_mask]`, whose mask pandas re-indexes onto the series' labels,
  cf. `check_bool_indexer`) becomes a pointwise `if`.
* Python values appearing as indexer payloads are represented by the inductive
  type `IdxVal`; a Python function that can raise is represented with
  `Except String`, the string naming the exception.
* Machine floats and dtypes do not appear: cells are an arbitrary type `α` and
  leaf predicates are Boolean functions on `α`.
-/

/-- `IndexType` enum from `index.py`: `POSITION = 0`, `LABEL = 1`. -/
inductive IndexType where
  | POSITION
  | LABEL
deriving DecidableEq, Repr

/-- The Python values used as the `index` payload of an `AxisIndexer`
(`IndexValue = Union[np.ndarray, pd.Series, str, int, slice]` in `index.py`),
plus the plain lists used by `invert_index`.  A `slice` carries optional
(non-negative) start/stop bounds; `slice(None)` is `slice none none`. -/
inductive IdxVal where
  | intVal (n : Int)
  | strVal (s : String)
  | slice (start stop : Option Nat)
  | natList (l : List Nat)
  | boolSeries (m : List Bool)
deriving DecidableEq, Repr

/-- `DirectIndexer` from `index.py`: an indexer that passes its index value
directly into `loc`/`iloc`, with a `negate` flag ("If yes, return all values
that this index does *not* select"). -/
structure DirectIndexer where
  index : IdxVal
  type : IndexType
  axis : Nat
  negate : Bool
deriving DecidableEq, Repr

/-- Type inference performed by `DirectIndexer.__init__` when no explicit
`typ` is passed: slices and lists are positional, boolean series are
positional, character values are labels, integers are positions; anything
else raises `PanSchIndexError`. -/
def DirectIndexer.inferType : IdxVal → Except String IndexType
  | .slice _ _ => .ok .POSITION
  | .natList _ => .ok .POSITION
  | .boolSeries _ => .ok .POSITION
  | .strVal _ => .ok .LABEL
  | .intVal _ => .ok .POSITION

/-- `DirectIndexer.__init__` with `typ=None` (the type is inferred). -/
def DirectIndexer.make (index : IdxVal) (axis : Nat) : Except String DirectIndexer :=
  (DirectIndexer.inferType index).map fun t =>
    { index := index, type := t, axis := axis, negate := false }

/-- The static method `DirectIndexer.invert_index`: a `slice(None, None)`
(select everything) inverts to the empty list (select nothing), the empty
list inverts to `slice(None)`, a boolean series inverts elementwise, and
every other index value raises `PanSchIndexError('Uninvertible type')`. -/
def DirectIndexer.invert_index : IdxVal → Except String IdxVal
  | .slice none none => .ok (.natList [])
  | .natList [] => .ok (.slice none none)
  | .boolSeries m => .ok (.boolSeries (m.map not))
  | _ => .error "PanSchIndexError: Uninvertible type"

/-- `DirectIndexer.__invert__`: returns a new indexer with the *same* index
value (`invert_index` is not called: that call is commented out in the
source) and the `negate` flag toggled.  It never raises. -/
def DirectIndexer.inv (d : DirectIndexer) : DirectIndexer :=
  { index := d.index, type := d.type, axis := d.axis, negate := !d.negate }

/-- The index payload of a `BooleanIndexer`
(`BooleanIndexType = Union[pd.Series, bool]`): a scalar `bool` or a boolean
series. -/
inductive BoolIdx where
  | scalar (b : Bool)
  | series (m : List Bool)
deriving DecidableEq, Repr

/-- `BooleanIndexer` from `index.py`. -/
structure BooleanIndexer where
  index : BoolIdx
  axis : Nat
deriving DecidableEq, Repr

/-- `BooleanIndexer.__invert__`: `np.logical_not` of the index, which negates
a scalar and maps negation over a series. -/
def BooleanIndexer.inv (b : BooleanIndexer) : BooleanIndexer :=
  { index :=
      match b.index with
      | .scalar x => .scalar (!x)
      | .series m => .series (m.map not),
    axis := b.axis }

/-- The `direct_index` property of `BooleanIndexer`: a scalar `True` becomes
the open slice `slice(None)` (select the whole axis), a scalar `False`
becomes the empty list (select nothing), and a vector is passed through. -/
def BoolIdx.direct_index : BoolIdx → IdxVal
  | .scalar true => .slice none none
  | .scalar false => .natList []
  | .series m => .boolSeries m

/-- `df.iloc(axis=a)[idx]` for the list-like index values, applied to the
sequence of entries along that axis.  Positional selection past the end of
the axis and a boolean mask of the wrong length raise `IndexError` in
pandas.  Scalar (`int`/`str`) indexing returns a single element rather than
a sequence and never occurs through `BooleanIndexer.__call__`, whose
`direct_index` only produces slices, lists and boolean series. -/
def ilocSelect {β : Type} (idx : IdxVal) (xs : List β) : Except String (List β) :=
  match idx with
  | .slice s t => .ok ((xs.drop (s.getD 0)).take (t.getD xs.length - s.getD 0))
  | .natList l =>
      if l.all (fun j => decide (j < xs.length)) then
        .ok (l.filterMap fun j => xs.get? j)
      else
        .error "IndexError: positional indexer out of bounds"
  | .boolSeries m =>
      if m.length = xs.length then
        .ok ((List.zipWith (fun b x => if b then some x else none) m xs).filterMap id)
      else
        .error "IndexError: boolean index length mismatch"
  | _ => .error "IndexError: scalar indexing returns a scalar, not a sequence"

/-- `BooleanIndexer.__call__`: `df.iloc(axis=self.axis)[self.direct_index]`,
viewed along the indexer's own axis. -/
def BooleanIndexer.call {β : Type} (b : BooleanIndexer) (xs : List β) :
    Except String (List β) :=
  ilocSelect b.index.direct_index xs

/-- An `AxisIndexer` is (in the engine) either a `DirectIndexer` or a
`BooleanIndexer`; `RowIndexer`/`ColumnIndexer` are the same values viewed
with `axis = 0` / `axis = 1`. -/
inductive AxisIndexer where
  | direct (d : DirectIndexer)
  | boolean (b : BooleanIndexer)
deriving DecidableEq, Repr

/-- `__invert__` on either kind of axis indexer. -/
def AxisIndexer.inv : AxisIndexer → AxisIndexer
  | .direct d => .direct d.inv
  | .boolean b => .boolean b.inv

/-- `DualAxisIndexer` from `index.py`: a row indexer paired with a column
indexer. -/
structure DualAxisIndexer where
  row_index : AxisIndexer
  col_index : AxisIndexer
deriving DecidableEq, Repr

/-- The axis argument, as passed around in Python: either an integer (`0` /
`1`) or one of the strings `'rows'` / `'columns'` that `CombinedValidation`
stores in `self.axis`. -/
inductive AxisArg where
  | int (n : Nat)
  | str (s : String)
deriving DecidableEq, Repr

/-- `DualAxisIndexer.invert`: `if axis == 0: ... elif axis == 1: ...` with no
`else` branch, so any other axis value (in particular the strings `'rows'`
and `'columns'`) falls through and the method returns `None`. -/
def DualAxisIndexer.invert (d : DualAxisIndexer) (axis : AxisArg) :
    Option DualAxisIndexer :=
  if axis = .int 0 then
    some { row_index := d.row_index.inv, col_index := d.col_index }
  else if axis = .int 1 then
    some { row_index := d.row_index, col_index := d.col_index.inv }
  else
    none

/-- `CombinedValidation.get_failed_index`:
`self.get_passed_index(df).invert(self.axis)` where `self.axis` is the
*string* `'rows'` (the default) or `'columns'`. -/
def CombinedValidation_get_failed_index (passed : DualAxisIndexer)
    (axis : AxisArg) : Option DualAxisIndexer :=
  passed.invert axis

/-- The boolean operator of a `CombinedValidation`: `operator.and_` or
`operator.or_`, as installed by `BaseValidation.__and__` / `__or__`. -/
inductive Op where
  | and
  | or
deriving DecidableEq, Repr

/-- Application of `operator.and_` / `operator.or_` to two booleans. -/
def Op.apply : Op → Bool → Bool → Bool
  | .and, a, b => a && b
  | .or, a, b => a || b

/-- `operator.and_` / `operator.or_` applied to the `index` payloads of two
`BooleanIndexer`s: scalar with scalar is the plain boolean operation,
series with series is the elementwise operation (the two series carry the
same labels `0 .. n-1`, so pandas' label alignment is the pointwise
`zipWith`; series of differing length would come from differently sized
frames, which the engine never produces, and are modelled as an error),
and scalar with series broadcasts. -/
def boolIdxOp (op : Op) : BoolIdx → BoolIdx → Except String BoolIdx
  | .scalar a, .scalar b => .ok (.scalar (op.apply a b))
  | .series m, .series m' =>
      if m.length = m'.length then
        .ok (.series (List.zipWith op.apply m m'))
      else
        .error "unaligned boolean series"
  | .scalar a, .series m => .ok (.series (m.map (fun b => op.apply a b)))
  | .series m, .scalar b => .ok (.series (m.map (fun a => op.apply a b)))

/-- `CombinedValidation.combine_indices`.  For `axis == 'rows'`: assert the
two column indexers are equal, assert the left row indexer is a
`BooleanIndexer`, then combine the row index payloads with the operator and
keep the (common) column indexer.  For `axis == 'columns'`: symmetric.  Any
other axis raises a bare `Exception`.  Applying the Python operator to a
`DirectIndexer`'s payload (when the right operand's row indexer is not a
`BooleanIndexer`, which the source does not assert) raises `TypeError`. -/
def combine_indices (op : Op) (axis : AxisArg) (left right : DualAxisIndexer) :
    Except String DualAxisIndexer :=
  if axis = .str "rows" then
    if left.col_index = right.col_index then
      match left.row_index with
      | .boolean bl =>
          match right.row_index with
          | .boolean br =>
              (boolIdxOp op bl.index br.index).map fun m =>
                { row_index := .boolean { index := m, axis := 0 },
                  col_index := left.col_index }
          | .direct _ => .error "TypeError: operator applied to a non-boolean index"
      | .direct _ => .error "AssertionError: isinstance(left.row_index, BooleanIndexer)"
    else
      .error "AssertionError: left.col_index == right.col_index"
  else if axis = .str "columns" then
    if left.row_index = right.row_index then
      match left.col_index with
      | .boolean bl =>
          match right.col_index with
          | .boolean br =>
              (boolIdxOp op bl.index br.index).map fun m =>
                { row_index := left.row_index,
                  col_index := .boolean { index := m, axis := 1 } }
          | .direct _ => .error "TypeError: operator applied to a non-boolean index"
      | .direct _ => .error "AssertionError: isinstance(left.col_index, BooleanIndexer)"
    else
      .error "AssertionError: left.row_index == right.row_index"
  else
    .error "Exception"

/-- The `index` setter of `SeriesValidation` for a bare (single-axis) index
value: the value becomes the column index of a `DualAxisIndexer` whose row
index is `BooleanIndexer(index=True, axis=0)`; the `DualAxisIndexer`
constructor wraps the raw column value in `DirectIndexer(index=val, axis=1)`
(with its type inferred, which can raise `PanSchIndexError`). -/
def SeriesValidation_set_index (val : IdxVal) : Except String DualAxisIndexer :=
  (DirectIndexer.make val 1).map fun ci =>
    { row_index := .boolean { index := .scalar true, axis := 0 },
      col_index := .direct ci }

/-- `ValidationScope` enum from `scope.py`.  Its only members are
`DATA_FRAME = 0`, `SERIES = 1` and `CELL = 2`. -/
inductive ValidationScope where
  | DATA_FRAME
  | SERIES
  | CELL
deriving DecidableEq, Repr

/-- Attribute lookup on the `ValidationScope` enum class: `getattr` succeeds
exactly on the names of the declared members and raises `AttributeError`
on any other name. -/
def ValidationScope.attr : String → Option ValidationScope
  | "DATA_FRAME" => some .DATA_FRAME
  | "SERIES" => some .SERIES
  | "CELL" => some .CELL
  | _ => none

/-- Which branch of `BaseValidation.index_to_warnings_series` handles a
`DataFrame`-shaped failed selection. -/
inductive FrameBranch where
  | dfWarning
  | seriesWarnings
  | rowWarnings
  | cellWarnings
  | fallthroughNone
deriving DecidableEq, Repr

/-- The scope dispatch of `BaseValidation.index_to_warnings_series` for a
non-empty `DataFrame`-shaped failed selection (core.py lines 110-132):
`if self.scope == ValidationScope.DATA_FRAME: ... elif self.scope ==
ValidationScope.SERIES: ... elif self.scope == ValidationScope.ROW: ...
elif self.scope == ValidationScope.CELL: ...`.  Evaluating the third
condition looks up the attribute `ROW` on the enum class; if the lookup
fails, the comparison raises `AttributeError` before any later branch can
be considered.  A scope matching no branch falls off the end of the `if`
chain and the method returns `None`. -/
def frameScopeDispatch (scope : ValidationScope) : Except String FrameBranch :=
  if scope = ValidationScope.DATA_FRAME then .ok .dfWarning
  else if scope = ValidationScope.SERIES then .ok .seriesWarnings
  else
    match ValidationScope.attr "ROW" with
    | none => .error "AttributeError: ROW"
    | some rowScope =>
        if scope = rowScope then .ok .rowWarnings
        else if scope = ValidationScope.CELL then .ok .cellWarnings
        else .ok .fallthroughNone

/-- `ValidationWarning` / `CombinedValidationWarning` from
`validation_warning.py`, restricted to the cell scope used by series
validations: a cell warning records the originating validation (identified
by `vid`), the row label and the offending value
(`make_cell_warning(column=..., row=cell.name, value=cell[0])`; the column
is the single validated column and is the same for every warning of a run),
and a combined warning wraps the two child warnings. -/
inductive Warning (α : Type) where
  | cell (vid : Nat) (row : Nat) (value : α)
  | combined (left right : Warning α)
deriving DecidableEq, Repr

/-- A validation tree over a single selected column, as the engine builds it:
a leaf is a `SeriesValidation` (its `validate_series` predicate applied
elementwise, its `negated` flag, and an identifier standing for the Python
object identity used to build warnings); `comb` is a `CombinedValidation`
with `operator.and_`/`operator.or_` and the default `axis='rows'`.  Every
node of one tree validates the same column (its `col_index`), which is the
situation `combine_indices` requires anyway (claim C6). -/
inductive VTree (α : Type) where
  | leaf (pred : α → Bool) (negated : Bool) (vid : Nat)
  | comb (op : Op) (left right : VTree α)

/-- The row mask of `get_passed_index`, in positional encoding over the `n`
rows of the frame.  For a leaf (`SeriesValidation.get_passed_index`):
`validate_series` produces the elementwise predicate mask and `negated`
inverts it (`index.invert(axis=0)` on a `BooleanIndexer` row mask is
elementwise negation).  For a combinator
(`CombinedValidation.get_passed_index`): the children's passed indexers are
combined with `combine_indices`, which here (same column, boolean row
masks, `axis='rows'`) is the elementwise boolean operator on the row
masks. -/
def passedMask {α : Type} : VTree α → List α → List Bool
  | .leaf pred negated _, cells =>
      if negated then (cells.map pred).map not else cells.map pred
  | .comb op l r, cells =>
      List.zipWith op.apply (passedMask l cells) (passedMask r cells)

/-- `df.loc[bool_row_mask, col]` for the validated column: the sub-series of
`cells` at the mask's `True` labels, in positional encoding. -/
def maskSelect {α : Type} (mask : List Bool) (cells : List α) : List (Option α) :=
  List.zipWith (fun m c => if m then some c else none) mask cells

/-- `List.map` with access to the position, starting at index `k`. -/
def mapWithIdx {α β : Type} (f : Nat → α → β) : Nat → List α → List β
  | _, [] => []
  | k, x :: xs => f k x :: mapWithIdx f (k + 1) xs

/-- `BaseValidation.index_to_warnings_series` for a `Series`-shaped failed
selection under `CELL` scope: one `make_cell_warning` per element of the
failed selection, carrying the element's label (`cell.name`) as the row and
its content as the value (an empty failed selection yields the empty
series). -/
def materializeCellWarnings {α : Type} (vid : Nat) (failedSel : List (Option α)) :
    List (Option (Warning α)) :=
  mapWithIdx (fun i oc => oc.map fun c => Warning.cell vid i c) 0 failedSel

/-- The `combine_index` closure inside `CombinedValidation.combine`: with
both sides failed, a single `CombinedValidationWarning` wrapping both child
warnings; with one side failed, that side's warning; a slot where neither
failed holds the `fill_value=False`. -/
def combineWarn {α : Type} : Option (Warning α) → Option (Warning α) → Option (Warning α)
  | some l, some r => some (.combined l r)
  | some l, none => some l
  | none, r => r

/-- `CombinedValidation.combine` on two warning series:
`left.combine(right, combine_index, fill_value=False)`, which aligns the two
series on the union of their labels (pointwise in positional encoding). -/
def combineSeries {α : Type} (l r : List (Option (Warning α))) :
    List (Option (Warning α)) :=
  List.zipWith combineWarn l r

/-- `warnings[bool_mask]` (the final line of
`CombinedValidation.get_warnings_series`): pandas re-indexes the full-length
boolean mask onto the warning series' labels and keeps the labels where the
mask holds. -/
def maskIndex {β : Type} (ws : List (Option β)) (mask : List Bool) :
    List (Option β) :=
  List.zipWith (fun w m => if m then w else none) ws mask

/-- `get_warnings_series` of a validation tree, in positional encoding.

For a leaf, `BaseValidation.get_warnings_series`: the failed index is the
inverted passed row mask paired with the column; applying it slices the
failing cells out of the column, and `index_to_warnings_series`
materializes one cell warning per failing label.

For a combinator, `CombinedValidation.get_warnings_series`: both children's
passed indexers are computed, their combination is inverted
(`.invert(axis=0)`) to give the combined failed row mask; each child's own
failed selection is materialized into a warning series (for a leaf child
this is `child.index_to_warnings_series(df, child_passed,
child_passed.invert(axis=0)(df))`, which equals the child's own
`get_warnings_series`; a combinator child's `index_to_warnings_series`
recurses into its `get_warnings_series` explicitly); the two warning series
are merged with `combine`, and the result is restricted to the combined
failed mask. -/
def warnSeries {α : Type} : VTree α → List α → List (Option (Warning α))
  | .leaf pred negated vid, cells =>
      materializeCellWarnings vid
        (maskSelect ((passedMask (VTree.leaf pred negated vid) cells).map not) cells)
  | .comb op l r, cells =>
      maskIndex
        (combineSeries (warnSeries l cells) (warnSeries r cells))
        ((List.zipWith op.apply (passedMask l cells) (passedMask r cells)).map not)

/-- `BaseValidation.to_warning_list` / `validate`: the warning series
flattened into the list of warnings it contains. -/
def toWarningList {α : Type} (ws : List (Option (Warning α))) : List (Warning α) :=
  ws.filterMap id

/-- `SeriesValidation.__invert__`: a copy of the validation with
`clone.negated = True` — the flag is *set*, not toggled, whatever its
previous value. -/
def SeriesValidation_invert {α : Type} (pred : α → Bool) (negated : Bool)
    (vid : Nat) : VTree α :=
  VTree.leaf pred true vid

/-- `IndexValidation.optional`:
`CombinedValidation(self, IsEmptyValidation(index=self.index),
operator=operator.or_)`.  `IsEmptyValidation.validate_series` tests each
cell for emptiness (`isnull()` for numeric/categorical series,
`str.len() == 0` otherwise); the per-cell test is the parameter
`isEmpty`. -/
def IndexValidation_optional {α : Type} (self : VTree α) (isEmpty : α → Bool)
    (emptyVid : Nat) : VTree α :=
  VTree.comb .or self (VTree.leaf isEmpty false emptyVid)

theorem getElem?_zipWith {α β γ : Type} (f : α → β → γ) (l₁ : List α) (l₂ : List β)
    (i : Nat) :
    (List.zipWith f l₁ l₂)[i]? = (l₁[i]?).bind fun a => (l₂[i]?).map (f a) := by
  induction l₁ generalizing l₂ i with
  | nil => simp
  | cons a l ih =>
    cases l₂ with
    | nil => simp
    | cons b l' =>
      cases i with
      | zero => simp
      | succ j => simpa using ih l' j

theorem map_not_not (l : List Bool) : (l.map not).map not = l := by
  induction l with
  | nil => rfl
  | cons a l ih => simp [ih, Bool.not_not]

theorem mapWithIdx_getElem? {α β : Type} (f : Nat → α → β) (k : Nat) (xs : List α)
    (i : Nat) : (mapWithIdx f k xs)[i]? = (xs[i]?).map (f (k + i)) := by
  induction xs generalizing k i with
  | nil => simp [mapWithIdx]
  | cons x xs ih =>
    cases i with
    | zero => simp [mapWithIdx]
    | succ j =>
      have := ih (k + 1) j
      simpa [mapWithIdx, Nat.add_assoc, Nat.add_comm 1 j] using this

theorem mapWithIdx_length {α β : Type} (f : Nat → α → β) (k : Nat) (xs : List α) :
    (mapWithIdx f k xs).length = xs.length := by
  induction xs generalizing k with
  | nil => rfl
  | cons x xs ih => simp [mapWithIdx, ih]

theorem Op.apply_true_true (op : Op) : op.apply true true = true := by
  cases op <;> rfl

theorem Op.apply_not_absorb (op : Op) (a b : Bool) :
    ((!op.apply a b) && (!a || !b)) = !op.apply a b := by
  cases op <;> cases a <;> cases b <;> rfl

theorem combineWarn_isSome {α : Type} (l r : Option (Warning α)) :
    (combineWarn l r).isSome = (l.isSome || r.isSome) := by
  cases l <;> cases r <;> rfl

theorem passedMask_length {α : Type} (T : VTree α) (cells : List α) :
    (passedMask T cells).length = cells.length := by
  induction T with
  | leaf p neg vid =>
    unfold passedMask
    split <;> simp
  | comb op l r ihl ihr =>
    simp [passedMask, List.length_zipWith, ihl, ihr]

theorem warnSeries_length {α : Type} (T : VTree α) (cells : List α) :
    (warnSeries T cells).length = cells.length := by
  induction T with
  | leaf p neg vid =>
    simp [warnSeries, materializeCellWarnings, mapWithIdx_length, maskSelect,
      List.length_zipWith, passedMask_length]
  | comb op l r ihl ihr =>
    simp [warnSeries, maskIndex, combineSeries, List.length_zipWith, ihl, ihr,
      passedMask_length]

/-- Central pointwise description of the engine: the warning series of any
validation tree has an entry at a label exactly when the tree's passed row
mask is `false` there. -/
theorem warnSeries_isSome {α : Type} (T : VTree α) (cells : List α) (i : Nat) :
    ((warnSeries T cells).getD i none).isSome
      = !((passedMask T cells).getD i true) := by
  rw [List.getD_eq_getElem?_getD, List.getD_eq_getElem?_getD]
  induction T with
  | leaf p neg vid =>
    rcases Nat.lt_or_ge i cells.length with hi | hi
    · have hipm : i < (passedMask (VTree.leaf p neg vid) cells).length := by
        rw [passedMask_length]; exact hi
      have hc : cells[i]? = some cells[i] := List.getElem?_eq_getElem hi
      have hpm : (passedMask (VTree.leaf p neg vid) cells)[i]?
          = some ((passedMask (VTree.leaf p neg vid) cells)[i]) :=
        List.getElem?_eq_getElem hipm
      rw [show warnSeries (VTree.leaf p neg vid) cells
            = materializeCellWarnings vid
                (maskSelect ((passedMask (VTree.leaf p neg vid) cells).map not) cells)
          from rfl]
      rw [materializeCellWarnings, mapWithIdx_getElem?, maskSelect,
        getElem?_zipWith, List.getElem?_map, hpm, hc]
      cases hb : (passedMask (VTree.leaf p neg vid) cells)[i] <;> simp [hb, hpm]
    · have h1 : (warnSeries (VTree.leaf p neg vid) cells)[i]? = none := by
        rw [List.getElem?_eq_none_iff, warnSeries_length]; exact hi
      have h2 : (passedMask (VTree.leaf p neg vid) cells)[i]? = none := by
        rw [List.getElem?_eq_none_iff, passedMask_length]; exact hi
      simp [h1, h2]
  | comb op l r ihl ihr =>
    rcases Nat.lt_or_ge i cells.length with hi | hi
    · have hlp : i < (passedMask l cells).length := by rw [passedMask_length]; exact hi
      have hrp : i < (passedMask r cells).length := by rw [passedMask_length]; exact hi
      have hlw : i < (warnSeries l cells).length := by rw [warnSeries_length]; exact hi
      have hrw : i < (warnSeries r cells).length := by rw [warnSeries_length]; exact hi
      have hlp' := List.getElem?_eq_getElem hlp
      have hrp' := List.getElem?_eq_getElem hrp
      have hlw' := List.getElem?_eq_getElem hlw
      have hrw' := List.getElem?_eq_getElem hrw
      rw [hlw', hlp'] at ihl
      rw [hrw', hrp'] at ihr
      simp only [Option.getD_some] at ihl ihr
      rw [show warnSeries (VTree.comb op l r) cells
            = maskIndex (combineSeries (warnSeries l cells) (warnSeries r cells))
                ((List.zipWith op.apply (passedMask l cells) (passedMask r cells)).map not)
          from rfl]
      rw [maskIndex, getElem?_zipWith, combineSeries, getElem?_zipWith,
        List.getElem?_map, getElem?_zipWith, hlw', hrw', hlp', hrp']
      rw [show passedMask (VTree.comb op l r) cells
            = List.zipWith op.apply (passedMask l cells) (passedMask r cells)
          from rfl]
      rw [getElem?_zipWith, hlp', hrp']
      simp only [Option.bind_some, Option.map_some', Option.getD_some]
      cases hob : op.apply (passedMask l cells)[i] (passedMask r cells)[i] with
      | false =>
        have habs := Op.apply_not_absorb op (passedMask l cells)[i] (passedMask r cells)[i]
        rw [hob] at habs
        simp only [Bool.not_false, Bool.true_and] at habs
        simp [hob, combineWarn_isSome, ihl, ihr, habs]
      | true => simp [hob]
    · have h1 : (warnSeries (VTree.comb op l r) cells)[i]? = none := by
        rw [List.getElem?_eq_none_iff, warnSeries_length]; exact hi
      have h2 : (passedMask (VTree.comb op l r) cells)[i]? = none := by
        rw [List.getElem?_eq_none_iff, passedMask_length]; exact hi
      simp [h1, h2]

theorem Op.apply_false_false (op : Op) : op.apply false false = false := by
  cases op <;> rfl

theorem passedMask_comb_getD {α : Type} (op : Op) (A B : VTree α) (cells : List α)
    (i : Nat) :
    (passedMask (VTree.comb op A B) cells).getD i true
      = op.apply ((passedMask A cells).getD i true)
          ((passedMask B cells).getD i true) := by
  rw [List.getD_eq_getElem?_getD, List.getD_eq_getElem?_getD,
    List.getD_eq_getElem?_getD]
  rcases Nat.lt_or_ge i cells.length with hi | hi
  · have hA' : i < (passedMask A cells).length := by rw [passedMask_length]; exact hi
    have hB' : i < (passedMask B cells).length := by rw [passedMask_length]; exact hi
    have hA := List.getElem?_eq_getElem hA'
    have hB := List.getElem?_eq_getElem hB'
    rw [show passedMask (VTree.comb op A B) cells
          = List.zipWith op.apply (passedMask A cells) (passedMask B cells)
        from rfl]
    rw [getElem?_zipWith, hA, hB]
    rfl
  · have hA : (passedMask A cells)[i]? = none := by
      rw [List.getElem?_eq_none_iff, passedMask_length]; exact hi
    have hB : (passedMask B cells)[i]? = none := by
      rw [List.getElem?_eq_none_iff, passedMask_length]; exact hi
    have hAB : (passedMask (VTree.comb op A B) cells)[i]? = none := by
      rw [List.getElem?_eq_none_iff, passedMask_length]; exact hi
    rw [hA, hB, hAB]
    simp [Op.apply_true_true]

theorem lt_of_passedMask_getD_false {α : Type} {T : VTree α} {cells : List α}
    {i : Nat} (h : (passedMask T cells).getD i true = false) : i < cells.length := by
  by_contra hge
  have hn : (passedMask T cells)[i]? = none := by
    rw [List.getElem?_eq_none_iff, passedMask_length]
    exact Nat.le_of_not_lt hge
  rw [List.getD_eq_getElem?_getD, hn] at h
  simp at h

/-- Claim C1: the warning series produced by evaluating the OR-combination of
two validation nodes `A` and `B` has an entry at a row label exactly when
both `A`'s and `B`'s passed row masks are `false` there — a position fails
the combination if and only if neither child's predicate accepts it. -/
theorem or_combination_warnings_located_at_mutual_failures {α : Type}
    (A B : VTree α) (cells : List α) (i : Nat) :
    ((warnSeries (VTree.comb Op.or A B) cells).getD i none).isSome
      = (!((passedMask A cells).getD i true)
          && !((passedMask B cells).getD i true)) := by
  rw [warnSeries_isSome, passedMask_comb_getD]
  simp [Op.apply, Bool.not_or]

/-- Claim C2: for either combinator (`And` or `Or`) and any position lying in
the failure sets of both children, the combined node's warning series holds,
at that position, a single `CombinedValidationWarning` wrapping both
children's warnings at that position — never two separate warnings (the
series has one slot per position, and that slot holds the merged warning). -/
theorem combined_validation_single_merged_warning {α : Type} (op : Op)
    (A B : VTree α) (cells : List α) (i : Nat)
    (hA : (passedMask A cells).getD i true = false)
    (hB : (passedMask B cells).getD i true = false) :
    ∃ wA wB,
      (warnSeries A cells).getD i none = some wA
      ∧ (warnSeries B cells).getD i none = some wB
      ∧ (warnSeries (VTree.comb op A B) cells).getD i none
          = some (Warning.combined wA wB) := by
  have hi : i < cells.length := lt_of_passedMask_getD_false hA
  have hsA : ((warnSeries A cells).getD i none).isSome = true := by
    rw [warnSeries_isSome, hA]; rfl
  have hsB : ((warnSeries B cells).getD i none).isSome = true := by
    rw [warnSeries_isSome, hB]; rfl
  obtain ⟨wA, hwA⟩ := Option.isSome_iff_exists.mp hsA
  obtain ⟨wB, hwB⟩ := Option.isSome_iff_exists.mp hsB
  refine ⟨wA, wB, hwA, hwB, ?_⟩
  have hiA : i < (warnSeries A cells).length := by rw [warnSeries_length]; exact hi
  have hiB : i < (warnSeries B cells).length := by rw [warnSeries_length]; exact hi
  have hvA : (warnSeries A cells)[i]? = some (some wA) := by
    have h := List.getElem?_eq_getElem hiA
    rw [List.getD_eq_getElem?_getD, h] at hwA
    rw [h]
    simpa using hwA
  have hvB : (warnSeries B cells)[i]? = some (some wB) := by
    have h := List.getElem?_eq_getElem hiB
    rw [List.getD_eq_getElem?_getD, h] at hwB
    rw [h]
    simpa using hwB
  have hpA : (passedMask A cells)[i]? = some false := by
    have h := List.getElem?_eq_getElem
      (show i < (passedMask A cells).length by rw [passedMask_length]; exact hi)
    rw [List.getD_eq_getElem?_getD, h] at hA
    rw [h]
    simpa using hA
  have hpB : (passedMask B cells)[i]? = some false := by
    have h := List.getElem?_eq_getElem
      (show i < (passedMask B cells).length by rw [passedMask_length]; exact hi)
    rw [List.getD_eq_getElem?_getD, h] at hB
    rw [h]
    simpa using hB
  rw [List.getD_eq_getElem?_getD]
  rw [show warnSeries (VTree.comb op A B) cells
        = maskIndex (combineSeries (warnSeries A cells) (warnSeries B cells))
            ((List.zipWith op.apply (passedMask A cells) (passedMask B cells)).map not)
      from rfl]
  rw [maskIndex, getElem?_zipWith, combineSeries, getElem?_zipWith,
    List.getElem?_map, getElem?_zipWith, hvA, hvB, hpA, hpB]
  simp [Op.apply_false_false, combineWarn]

/-- Witness for claim C2 at a concrete input: two always-failing predicates
over the one-cell column `[5]`, combined with OR, at position 0. -/
theorem combined_validation_single_merged_warning_witness :
    ∃ wA wB,
      (warnSeries (VTree.leaf (fun _ : Nat => false) false 1) [5]).getD 0 none
          = some wA
      ∧ (warnSeries (VTree.leaf (fun _ : Nat => false) false 2) [5]).getD 0 none
          = some wB
      ∧ (warnSeries (VTree.comb Op.or (VTree.leaf (fun _ : Nat => false) false 1)
            (VTree.leaf (fun _ : Nat => false) false 2)) [5]).getD 0 none
          = some (Warning.combined wA wB) :=
  combined_validation_single_merged_warning Op.or
    (VTree.leaf (fun _ : Nat => false) false 1)
    (VTree.leaf (fun _ : Nat => false) false 2) [5] 0 (by decide) (by decide)

/-- Claim C3, counterexample: `SeriesValidation.__invert__` *sets*
`negated = True` instead of toggling it, so double inversion produces the
same validation as single inversion, not the original.  Concretely, with
`A` the non-negated validation of the predicate `n == 0` over the one-cell
column `[0]`: `~~A` equals `~A` as a validation, and its warning series
(one warning, at row 0) differs from `A`'s warning series (no warnings). -/
theorem double_inversion_counterexample :
    SeriesValidation_invert (fun n : Nat => n == 0) true 7
        = SeriesValidation_invert (fun n : Nat => n == 0) false 7
    ∧ warnSeries (SeriesValidation_invert (fun n : Nat => n == 0) true 7) [0]
        ≠ warnSeries (VTree.leaf (fun n : Nat => n == 0) false 7) [0] :=
  ⟨rfl, by decide⟩

/-- Claim C3, amended: `Not(A)` reports warnings at exactly `A`'s passing
positions (the complement of `A`'s own warning positions); but
`Not(Not(A))` behaves identically to `Not(A)`, not to `A`, because
`__invert__` unconditionally sets the clone's `negated` flag to `True`
rather than toggling it. -/
theorem negation_complement_amended {α : Type} (p : α → Bool) (neg : Bool)
    (vid : Nat) (cells : List α) (i : Nat) :
    (((warnSeries (SeriesValidation_invert p false vid) cells).getD i none).isSome
        = (passedMask (VTree.leaf p false vid) cells).getD i false)
    ∧ SeriesValidation_invert p neg vid = VTree.leaf p true vid
    ∧ warnSeries (SeriesValidation_invert p true vid) cells
        = warnSeries (SeriesValidation_invert p false vid) cells := by
  refine ⟨?_, rfl, rfl⟩
  rw [warnSeries_isSome]
  rcases Nat.lt_or_ge i cells.length with hi | hi
  · have hc := List.getElem?_eq_getElem hi
    rw [List.getD_eq_getElem?_getD, List.getD_eq_getElem?_getD]
    rw [show passedMask (SeriesValidation_invert p false vid) cells
          = (cells.map p).map not from rfl]
    rw [show passedMask (VTree.leaf p false vid) cells = cells.map p from rfl]
    simp [List.getElem?_map, hc, Bool.not_not]
  · have h1 : (cells.map p)[i]? = none := by
      rw [List.getElem?_eq_none_iff]
      simpa using hi
    rw [List.getD_eq_getElem?_getD, List.getD_eq_getElem?_getD]
    rw [show passedMask (SeriesValidation_invert p false vid) cells
          = (cells.map p).map not from rfl]
    rw [show passedMask (VTree.leaf p false vid) cells = cells.map p from rfl]
    rw [List.getElem?_map, h1]
    simp

/-- The index shapes of an `AxisIndexer` that the engine can invert, per the
claim: a boolean indexer (mask or scalar), the open "everything" slice, or
the empty "nothing" selection. -/
def invertibleIndexer : AxisIndexer → Bool
  | .boolean _ => true
  | .direct d => d.index == .slice none none || d.index == .natList []

/-- Claim C4: inverting an invertible axis indexer twice yields an indexer
equal to the original, whatever its axis — for a `BooleanIndexer` because
double logical negation is the identity on scalars and on masks, and for a
`DirectIndexer` because `__invert__` only toggles the `negate` flag. -/
theorem axis_indexer_double_inversion (x : AxisIndexer)
    (h : invertibleIndexer x = true) : x.inv.inv = x := by
  cases x with
  | direct d => simp [AxisIndexer.inv, DirectIndexer.inv]
  | boolean b =>
    cases b with
    | mk idx ax =>
      cases idx with
      | scalar s => simp [AxisIndexer.inv, BooleanIndexer.inv]
      | series m =>
        have h2 := map_not_not m
        simp only [List.map_map] at h2
        simp [AxisIndexer.inv, BooleanIndexer.inv, h2]

/-- Witness for claim C4 at a concrete input: the row mask `[true, false]`. -/
theorem axis_indexer_double_inversion_witness :
    invertibleIndexer
        (AxisIndexer.boolean { index := .series [true, false], axis := 0 }) = true
    ∧ (AxisIndexer.boolean { index := .series [true, false], axis := 0 }).inv.inv
        = AxisIndexer.boolean { index := .series [true, false], axis := 0 } :=
  ⟨rfl, axis_indexer_double_inversion _ rfl⟩

/-- Claim C5, counterexample: inverting a `DirectIndexer` over a single
label index does *not* raise — `__invert__` returns a new indexer with the
same index value and the `negate` flag toggled (a flag that no `__call__`
path consults). -/
theorem label_indexer_inversion_returns_indexer :
    DirectIndexer.inv
        { index := .strVal "age", type := .LABEL, axis := 1, negate := false }
      = { index := .strVal "age", type := .LABEL, axis := 1, negate := true } :=
  rfl

/-- The index values that are neither a boolean mask, the open slice, nor the
empty list — the shapes the claim calls not invertible. -/
def uninvertibleIdx : IdxVal → Bool
  | .slice none none => false
  | .natList [] => false
  | .boolSeries _ => false
  | _ => true

/-- Claim C5, amended: for an axis indexer whose index is not a boolean
mask, an "everything" slice, or an empty selection, the helper
`DirectIndexer.invert_index` raises `PanSchIndexError('Uninvertible type')`
— but `DirectIndexer.__invert__` does not call it: it returns an indexer
with the same index and the `negate` flag toggled instead of raising. -/
theorem uninvertible_index_amended (d : DirectIndexer)
    (h : uninvertibleIdx d.index = true) :
    DirectIndexer.invert_index d.index
        = .error "PanSchIndexError: Uninvertible type"
    ∧ d.inv = { index := d.index, type := d.type, axis := d.axis,
                negate := !d.negate } := by
  obtain ⟨idx, ty, ax, ng⟩ := d
  refine ⟨?_, rfl⟩
  simp only at h
  cases idx with
  | intVal n => rfl
  | strVal s => rfl
  | slice s t =>
    cases s with
    | none =>
      cases t with
      | none => simp [uninvertibleIdx] at h
      | some v => rfl
    | some v => rfl
  | natList l =>
    cases l with
    | nil => simp [uninvertibleIdx] at h
    | cons a l => rfl
  | boolSeries m => simp [uninvertibleIdx] at h

/-- Witness for the amended claim C5 at the concrete label indexer
`Column "age"`. -/
theorem uninvertible_index_amended_witness :
    DirectIndexer.invert_index (.strVal "age")
        = .error "PanSchIndexError: Uninvertible type"
    ∧ DirectIndexer.inv
          { index := .strVal "age", type := .LABEL, axis := 1, negate := false }
        = { index := .strVal "age", type := .LABEL, axis := 1, negate := true } :=
  uninvertible_index_amended
    { index := .strVal "age", type := .LABEL, axis := 1, negate := false } rfl

/-- Claim C6: when two validation results are combined along the row axis,
`combine_indices` asserts that the children's column indexers are equal —
unequal column indexers always trip the assertion (they are never silently
tolerated), and when the precondition holds (and the row indexers are the
boolean masks that `get_passed_index` produces) the column-equality
assertion cannot fire and the combination succeeds. -/
theorem combine_indices_column_assertion (op : Op) (left right : DualAxisIndexer) :
    (left.col_index ≠ right.col_index →
      combine_indices op (.str "rows") left right
        = .error "AssertionError: left.col_index == right.col_index")
    ∧ (∀ bl br m, left.col_index = right.col_index →
        left.row_index = .boolean bl → right.row_index = .boolean br →
        boolIdxOp op bl.index br.index = .ok m →
        combine_indices op (.str "rows") left right
          = .ok { row_index := .boolean { index := m, axis := 0 },
                  col_index := left.col_index }) := by
  constructor
  · intro h
    simp [combine_indices, h]
  · intro bl br m hcol hl hr hop
    simp [combine_indices, hcol, hl, hr, hop, Except.map]

/-- Witness for claim C6 at concrete inputs: both branches of the theorem,
once with unequal column indexers (assertion fires) and once with equal
column indexers and boolean row masks (combination succeeds). -/
theorem combine_indices_column_assertion_witness :
    combine_indices Op.and (.str "rows")
        { row_index := .boolean { index := .series [true], axis := 0 },
          col_index := .direct { index := .intVal 0, type := .POSITION, axis := 1,
                                 negate := false } }
        { row_index := .boolean { index := .series [false], axis := 0 },
          col_index := .direct { index := .intVal 1, type := .POSITION, axis := 1,
                                 negate := false } }
      = .error "AssertionError: left.col_index == right.col_index"
    ∧ combine_indices Op.and (.str "rows")
        { row_index := .boolean { index := .series [true], axis := 0 },
          col_index := .direct { index := .intVal 0, type := .POSITION, axis := 1,
                                 negate := false } }
        { row_index := .boolean { index := .series [false], axis := 0 },
          col_index := .direct { index := .intVal 0, type := .POSITION, axis := 1,
                                 negate := false } }
      = .ok { row_index := .boolean { index := .series [false], axis := 0 },
              col_index := .direct { index := .intVal 0, type := .POSITION, axis := 1,
                                     negate := false } } :=
  ⟨(combine_indices_column_assertion Op.and _ _).1 (by decide),
   (combine_indices_column_assertion Op.and _ _).2
     { index := .series [true], axis := 0 }
     { index := .series [false], axis := 0 }
     (.series [false]) (by decide) rfl rfl rfl⟩

/-- Claim C7: the `ValidationScope` enum in `scope.py` has no `ROW` member,
so the row-scope pathway of `index_to_warnings_series` cannot run: looking
up `ValidationScope.ROW` (as `core.py` line 119 and `df_validations.py`
line 52, `scope=ValidationScope.ROW`, both do) raises `AttributeError`.
Consequently a `CELL`-scope validation whose failed selection is
`DataFrame`-shaped crashes when the `elif self.scope == ValidationScope.ROW`
condition is evaluated, and no scope value can ever reach the
one-warning-per-failing-row branch — contradicting both the claim and the
code's own `DistinctRowValidation` tests. -/
theorem row_scope_missing_member_bug :
    ValidationScope.attr "ROW" = none
    ∧ frameScopeDispatch ValidationScope.CELL = .error "AttributeError: ROW"
    ∧ (∀ s : ValidationScope, frameScopeDispatch s ≠ .ok .rowWarnings)
    ∧ frameScopeDispatch ValidationScope.DATA_FRAME = .ok .dfWarning
    ∧ frameScopeDispatch ValidationScope.SERIES = .ok .seriesWarnings := by
  refine ⟨rfl, rfl, ?_, rfl, rfl⟩
  intro s
  cases s <;> simp [frameScopeDispatch, ValidationScope.attr]

/-- Claim C8: `optional()` is exactly the OR-combination of the validation
with an `IsEmptyValidation` over the same index, and the combined
validation's warning series never has an entry at a position whose cell is
empty — whatever the underlying validation (negated or not) would report
there. -/
theorem optional_never_warns_on_empty_cells {α : Type} (p isEmpty : α → Bool)
    (neg : Bool) (vid evid : Nat) (cells : List α) (i : Nat) (c : α)
    (hc : cells[i]? = some c) (he : isEmpty c = true) :
    IndexValidation_optional (VTree.leaf p neg vid) isEmpty evid
        = VTree.comb Op.or (VTree.leaf p neg vid) (VTree.leaf isEmpty false evid)
    ∧ (warnSeries (IndexValidation_optional (VTree.leaf p neg vid) isEmpty evid)
          cells).getD i none = none := by
  refine ⟨rfl, ?_⟩
  have hpe : (passedMask (VTree.leaf isEmpty false evid) cells).getD i true
      = true := by
    rw [List.getD_eq_getElem?_getD]
    rw [show passedMask (VTree.leaf isEmpty false evid) cells
          = cells.map isEmpty from rfl]
    rw [List.getElem?_map, hc]
    simp [he]
  have hcomb := passedMask_comb_getD Op.or (VTree.leaf p neg vid)
    (VTree.leaf isEmpty false evid) cells i
  rw [hpe] at hcomb
  have hcombT : (passedMask (VTree.comb Op.or (VTree.leaf p neg vid)
      (VTree.leaf isEmpty false evid)) cells).getD i true = true := by
    rw [hcomb]
    simp [Op.apply]
  have hs := warnSeries_isSome (IndexValidation_optional (VTree.leaf p neg vid)
    isEmpty evid) cells i
  rw [show passedMask (IndexValidation_optional (VTree.leaf p neg vid) isEmpty evid)
        cells
      = passedMask (VTree.comb Op.or (VTree.leaf p neg vid)
          (VTree.leaf isEmpty false evid)) cells from rfl] at hs
  rw [hcombT] at hs
  simp only [Bool.not_true] at hs
  cases hw : (warnSeries (IndexValidation_optional (VTree.leaf p neg vid) isEmpty
      evid) cells).getD i none with
  | none => rfl
  | some w => rw [hw] at hs; simp at hs

/-- Witness for claim C8 at a concrete input: the validation `n == 1`
(failing everywhere) made optional with emptiness test `n == 0`, over the
column `[0]` whose only cell is empty, at position 0. -/
theorem optional_never_warns_on_empty_cells_witness :
    IndexValidation_optional (VTree.leaf (fun n : Nat => n == 1) false 3)
          (fun n : Nat => n == 0) 4
        = VTree.comb Op.or (VTree.leaf (fun n : Nat => n == 1) false 3)
            (VTree.leaf (fun n : Nat => n == 0) false 4)
    ∧ (warnSeries (IndexValidation_optional (VTree.leaf (fun n : Nat => n == 1)
          false 3) (fun n : Nat => n == 0) 4) [0]).getD 0 none = none :=
  optional_never_warns_on_empty_cells (fun n : Nat => n == 1)
    (fun n : Nat => n == 0) false 3 4 [0] 0 0 rfl (by decide)

/-- Claim C9: `DualAxisIndexer.invert` returns an inverted indexer exactly
for the integer axes `0` and `1`; any other axis value falls through both
branches and the method returns `None` — in particular for the string
values `'rows'` and `'columns'` that `CombinedValidation` stores in
`self.axis` and passes from `get_failed_index`. -/
theorem dual_axis_invert_falls_through_to_none (d : DualAxisIndexer) :
    d.invert (.int 0)
        = some { row_index := d.row_index.inv, col_index := d.col_index }
    ∧ d.invert (.int 1)
        = some { row_index := d.row_index, col_index := d.col_index.inv }
    ∧ (∀ a : AxisArg, a ≠ .int 0 → a ≠ .int 1 → d.invert a = none)
    ∧ CombinedValidation_get_failed_index d (.str "rows") = none
    ∧ CombinedValidation_get_failed_index d (.str "columns") = none := by
  refine ⟨rfl, rfl, ?_, rfl, rfl⟩
  intro a h0 h1
  simp [DualAxisIndexer.invert, h0, h1]

/-- Witness for claim C9 at a concrete input: inverting over the axis value
`'rows'` returns `None`. -/
theorem dual_axis_invert_falls_through_to_none_witness :
    DualAxisIndexer.invert
        { row_index := .boolean { index := .scalar true, axis := 0 },
          col_index := .direct { index := .intVal 0, type := .POSITION, axis := 1,
                                 negate := false } }
        (.str "rows")
      = none :=
  (dual_axis_invert_falls_through_to_none
      { row_index := .boolean { index := .scalar true, axis := 0 },
        col_index := .direct { index := .intVal 0, type := .POSITION, axis := 1,
                               negate := false } }).2.2.1
    (.str "rows") (by decide) (by decide)

/-- Claim C10: a scalar-`True` boolean indexer converts to the open slice
and selects the whole axis, a scalar-`False` one converts to the empty list
and selects nothing; and a `SeriesValidation` built from a bare column
index gets the row indexer `BooleanIndexer(index=True, axis=0)`, so it
validates all rows of its column. -/
theorem scalar_boolean_indexer_selects_all_or_nothing {β : Type} (xs : List β)
    (v : IdxVal) (d : DualAxisIndexer) :
    BoolIdx.direct_index (.scalar true) = IdxVal.slice none none
    ∧ BoolIdx.direct_index (.scalar false) = IdxVal.natList []
    ∧ BooleanIndexer.call { index := .scalar true, axis := 0 } xs = .ok xs
    ∧ BooleanIndexer.call { index := .scalar false, axis := 0 } xs = .ok []
    ∧ (SeriesValidation_set_index v = .ok d →
        d.row_index = .boolean { index := .scalar true, axis := 0 }
        ∧ BooleanIndexer.call { index := .scalar true, axis := 0 } xs = .ok xs) := by
  have hall : BooleanIndexer.call { index := .scalar true, axis := 0 } xs
      = .ok xs := by
    simp [BooleanIndexer.call, ilocSelect, BoolIdx.direct_index]
  refine ⟨rfl, rfl, hall, rfl, ?_⟩
  intro h
  refine ⟨?_, hall⟩
  unfold SeriesValidation_set_index at h
  cases hm : DirectIndexer.make v 1 with
  | error e => rw [hm] at h; simp [Except.map] at h
  | ok ci =>
    rw [hm] at h
    simp only [Except.map, Except.ok.injEq] at h
    rw [← h]

/-- Witness for claim C10 at a concrete input: the bare column index `0`
over a two-row column. -/
theorem scalar_boolean_indexer_selects_all_or_nothing_witness :
    SeriesValidation_set_index (.intVal 0)
        = .ok { row_index := .boolean { index := .scalar true, axis := 0 },
                col_index := .direct { index := .intVal 0, type := .POSITION,
                                       axis := 1, negate := false } }
    ∧ BooleanIndexer.call { index := .scalar true, axis := 0 } [10, 20]
        = .ok [10, 20] :=
  ⟨rfl,
   ((scalar_boolean_indexer_selects_all_or_nothing [10, 20] (.intVal 0)
      { row_index := .boolean { index := .scalar true, axis := 0 },
        col_index := .direct { index := .intVal 0, type := .POSITION,
                               axis := 1, negate := false } }).2.2.2.2 rfl).2⟩
